import Mathlib

/-!
Verification of the movie-catalog listing logic of the b-movies repository:
query-parameter sanitization, the windowed pagination computation, page-link
URL construction, and the crew-linking server action.

JavaScript/TypeScript semantics are embedded shallowly:
an absent query parameter is `Option.none`; JS falsiness of a string value
(`v || d`) is modelled by treating only the empty string as falsy;
`parseInt` returning `NaN` is modelled as `Option.none` on `Int`, and
`NaN`-propagation through `Math.max` is modelled by mapping over the option.
-/

namespace BMovies

/-- JS `v || d` on an optional string: absent or empty string yields the
default `d`, any other string is kept.  Only `""` is a falsy string in JS. -/
def strOrDefault (v : Option String) (d : String) : String :=
  match v with
  | none => d
  | some s => if s = "" then d else s

/-- Digits forming the longest leading run of decimal digits of a character
list (the prefix `parseInt` consumes). -/
def leadingDigits : List Char → List Char
  | [] => []
  | c :: cs => if c.isDigit then c :: leadingDigits cs else []

/-- Numeric value of a list of decimal digit characters. -/
def digitsToNat (ds : List Char) : Nat :=
  ds.foldl (fun a c => a * 10 + (c.toNat - 48)) 0

/-- JS `parseInt(s)` (base 10): skip leading whitespace, read an optional
sign, then the longest run of decimal digits; if that run is empty the
result is `NaN`, modelled as `none`.  (The hexadecimal `0x` form of
`parseInt` is not exercised by any claim and is not modelled.) -/
def parseIntJS (s : String) : Option Int :=
  let cs := s.data.dropWhile (fun c => c.isWhitespace)
  match cs with
  | '-' :: rest =>
      let ds := leadingDigits rest
      if ds = [] then none else some (-(digitsToNat ds : Int))
  | '+' :: rest =>
      let ds := leadingDigits rest
      if ds = [] then none else some ((digitsToNat ds : Int))
  | _ =>
      let ds := leadingDigits cs
      if ds = [] then none else some ((digitsToNat ds : Int))

/-- Line 43 of `src/src/app/movies/page.tsx`:
`const page = parseInt(params.page || "1")`. -/
def pageParsed (pageParam : Option String) : Option Int :=
  parseIntJS (strOrDefault pageParam "1")

/-- Line 53: `const currentPage = Math.max(1, page)`.
`Math.max(1, NaN)` is `NaN` in JS, so `none` propagates. -/
def currentPageJS (pageParam : Option String) : Option Int :=
  (pageParsed pageParam).map (fun n => max 1 n)

/-- The value of a JS property read on the `SORT_MAP` object literal: an own
string-valued entry, a member inherited from `Object.prototype` (a function
or object, always truthy), or `undefined`. -/
inductive JSValue where
  | str (s : String)
  | protoMember (name : String)
  | undefined
deriving DecidableEq

/-- The members every plain object literal inherits from
`Object.prototype` and that a property read finds on the prototype chain. -/
def objectProtoKeys : List String :=
  ["constructor", "toString", "toLocaleString", "valueOf", "hasOwnProperty",
   "isPrototypeOf", "propertyIsEnumerable", "__proto__", "__defineGetter__",
   "__defineSetter__", "__lookupGetter__", "__lookupSetter__"]

/-- Lines 18-23: the `SORT_MAP` object literal, read with JS property-access
semantics: an own property first, then the prototype chain
(`Object.prototype`), and `undefined` only when the key is on neither. -/
def SORT_MAP (k : String) : JSValue :=
  if k = "title" then .str "title"
  else if k = "releaseDate" then .str "releaseDate"
  else if k = "rating" then .str "rating"
  else if k = "votes" then .str "votes"
  else if k ∈ objectProtoKeys then .protoMember k
  else .undefined

/-- JS truthiness of such a value: `undefined` and the empty string are
falsy; an inherited function or object is truthy. -/
def JSValue.truthy : JSValue → Bool
  | .str s => s ≠ ""
  | .protoMember _ => true
  | .undefined => false

/-- Line 42: `const sort = (params.sort as keyof typeof SORT_MAP) || "title"`.
The `as` cast has no runtime effect. -/
def sortKeyOf (sortParam : Option String) : String :=
  strOrDefault sortParam "title"

/-- Line 49: `const sortField = SORT_MAP[sort] || "title"` — the looked-up
value when it is truthy, the string "title" otherwise.  An inherited
`Object.prototype` member is truthy, so it is kept. -/
def sortField (sortParam : Option String) : JSValue :=
  if (SORT_MAP (sortKeyOf sortParam)).truthy then SORT_MAP (sortKeyOf sortParam)
  else .str "title"

/-- Line 46: `const sortOrder = params.order === "desc" ? "desc" : "asc"`. -/
def sortOrder (orderParam : Option String) : String :=
  if orderParam = some "desc" then "desc" else "asc"

/-- Line 148: the Previous link target,
`Math.max(1, currentPage - 1)`. -/
def prevTarget (currentPage : Int) : Int :=
  max 1 (currentPage - 1)

/-- Line 178: the Next link target,
`Math.min(totalPages, currentPage + 1)`. -/
def nextTarget (totalPages currentPage : Int) : Int :=
  min totalPages (currentPage + 1)

/-- Modelled from the spec: the secondary pure function
`clamp(page, totalPages) = min(max(page,1), max(totalPages,1))` of section
4.2 of the spec.  It exists only in the spec, not in the source, and is
stated here to be compared with `prevTarget` and `nextTarget`. -/
def clampSpec (page totalPages : Int) : Int :=
  min (max page 1) (max totalPages 1)

/-- A token of the pagination control: a numbered page link or an ellipsis. -/
inductive PageItem where
  | page (n : Int)
  | ellipsis
deriving DecidableEq

/-- Modelled from the spec: `getPaginationItems` lives in the repository's
`src/lib/pagination.ts`, which is not under `src/` (only its import and call
site in `page.tsx` are).  Modelled from section 4.2: empty when
`totalPages ≤ 1`; otherwise the sibling window
`[currentPage - siblingCount, currentPage + siblingCount] ∩ [1, totalPages]`,
with the first and last pages always present as anchors and an ellipsis
inserted between an anchor and the window whenever the gap between the two
shown page numbers exceeds one. -/
def getPaginationItems (totalPages currentPage siblingCount : Int) : List PageItem :=
  if totalPages ≤ 1 then []
  else
    let lo := max 1 (currentPage - siblingCount)
    let hi := min totalPages (currentPage + siblingCount)
    let window := (List.range (hi + 1 - lo).toNat).map (fun i => PageItem.page (lo + i))
    let left :=
      if 1 < lo then
        if 1 < lo - 1 then [PageItem.page 1, PageItem.ellipsis] else [PageItem.page 1]
      else []
    let right :=
      if hi < totalPages then
        if 1 < totalPages - hi then [PageItem.ellipsis, PageItem.page totalPages]
        else [PageItem.page totalPages]
      else []
    left ++ window ++ right

/-- Line 168: `isActive={currentPage === item}` — a numbered token is marked
current exactly when it equals the current page; an ellipsis never is. -/
def isActive (currentPage : Int) : PageItem → Bool
  | .page n => currentPage = n
  | .ellipsis => false

/-- The pagination control as rendered by lines 144-189: previous and next
link targets, the token sequence, and the disabled flags. -/
structure PaginationControl where
  prevHref : Int
  items : List PageItem
  nextHref : Int
  prevDisabled : Bool
  nextDisabled : Bool
deriving DecidableEq

/-- Lines 143-190: `{totalPages > 1 && (<Pagination ...>)}` — the control is
rendered only when `totalPages > 1`, with the previous/next targets of lines
148 and 178 and the token sequence of line 114
(`getPaginationItems(totalPages, currentPage, 2)`). -/
def renderPagination (totalPages currentPage : Int) : Option PaginationControl :=
  if 1 < totalPages then
    some
      { prevHref := prevTarget currentPage
        items := getPaginationItems totalPages currentPage 2
        nextHref := nextTarget totalPages currentPage
        prevDisabled := currentPage = 1
        nextDisabled := currentPage = totalPages }
  else none

/-- Line 52: `const PAGE_SIZE = 24`. -/
def PAGE_SIZE : Int := 24

/-- The raw request query parameters of the movies page (`searchParams`):
five optional string-valued keys. -/
structure ReqParams where
  q : Option String
  genre : Option String
  sort : Option String
  order : Option String
  page : Option String

/-- The query window passed to the data store by the `findMany` call,
lines 79-80: `skip: (currentPage - 1) * PAGE_SIZE, take: PAGE_SIZE`,
together with the resolved sort target of line 65.  The window is a function
of the sanitized page index alone; no request parameter reaches `take`. -/
structure QueryWindow where
  skip : Int
  take : Int
  orderField : JSValue
  orderDir : String
deriving DecidableEq

/-- Lines 64-81 restricted to the window and sort arguments of the
`findMany` call, for a sanitized page index `currentPage`. -/
def movieQueryWindow (params : ReqParams) (currentPage : Int) : QueryWindow :=
  { skip := (currentPage - 1) * PAGE_SIZE
    take := PAGE_SIZE
    orderField := sortField params.sort
    orderDir := sortOrder params.order }

/-- Lines 103-111, `createPageHref`: iterate the entries of the request
parameter object (an association list of key-value pairs, keys distinct as
object keys are), skip an entry whose value is falsy (the empty string) or
whose key is "page", keep the rest with values unchanged, then set "page" to
the target page.  The result is the key-value sequence serialized into the
href. -/
def createPageHref (entries : List (String × String)) (p : Int) : List (String × String) :=
  entries.filter (fun kv => !(kv.2 == "" || kv.1 == "page")) ++ [("page", toString p)]

/-- A movie row as far as the where-predicate observes it: a title and the
names of its associated genres. -/
structure Movie where
  title : String
  genres : List String

/-- Boolean prefix test on character lists. -/
def isPrefixOfB : List Char → List Char → Bool
  | [], _ => true
  | _ :: _, [] => false
  | a :: as, b :: bs => a == b && isPrefixOfB as bs

/-- Boolean substring containment: `needle` occurs contiguously in the
list. -/
def containsSub (needle : List Char) : List Char → Bool
  | [] => isPrefixOfB needle []
  | c :: cs => isPrefixOfB needle (c :: cs) || containsSub needle cs

/-- Prisma `title: { contains: query, mode: "insensitive" }`:
case-insensitive substring containment. -/
def titleContainsCI (title query : String) : Bool :=
  containsSub query.toLower.data title.toLower.data

/-- The where-predicate of a movie query: a case-insensitive containment
filter on the title plus an optional genre-membership restriction. -/
structure MovieWhere where
  titleContains : String
  genreSome : Option String
deriving DecidableEq

/-- Lines 66-78: the where argument of the `findMany` call — containment of
`query` in the title, and `genres: { some: { name: selectedGenre } }` spread
in only when `selectedGenre` is truthy (non-empty). -/
def findManyWhere (query selectedGenre : String) : MovieWhere :=
  { titleContains := query
    genreSome := if selectedGenre = "" then none else some selectedGenre }

/-- Lines 85-97: the where argument of the `count` call, transcribed from
its own source lines. -/
def countWhere (query selectedGenre : String) : MovieWhere :=
  { titleContains := query
    genreSome := if selectedGenre = "" then none else some selectedGenre }

/-- Semantics of a where-predicate on a movie row: case-insensitive title
containment, and membership of the named genre when the restriction is
present. -/
def matchesWhere (w : MovieWhere) (m : Movie) : Bool :=
  titleContainsCI m.title w.titleContains &&
    match w.genreSome with
    | none => true
    | some g => m.genres.contains g

/-- A row of the `MovieCrew` table, as far as `linkPersonToMovieAction`
observes it. -/
structure MovieCrew where
  id : Nat
  movieId : Nat
  personId : Nat
  role : String
  job : Option String
  character : Option String
  order : Option Int
deriving DecidableEq

/-- The validated input of `linkPersonToMovieAction` after the schema
parse (lines 205-212 of `src/src/actions/...`). -/
structure LinkInput where
  movieId : Nat
  personId : Nat
  role : String
  job : Option String
  character : Option String
  order : Option Int

/-- JS `s.trim()`: remove whitespace from both ends of the string, modelled
structurally on the character list. -/
def trimJS (s : String) : String :=
  String.mk
    (((s.data.dropWhile (fun c => c.isWhitespace)).reverse.dropWhile
        (fun c => c.isWhitespace)).reverse)

/-- Lines 215-216: `data.job?.trim() || null` (and likewise `character`) —
trim the string when present; an absent value, or one trimming to the empty
string, becomes null. -/
def normNullable (v : Option String) : Option String :=
  match v with
  | none => none
  | some s => if trimJS s = "" then none else some (trimJS s)

/-- The identifying tuple of a crew link:
(movieId, personId, role, job, character). -/
def CrewKey : Type := Nat × Nat × String × Option String × Option String

instance : DecidableEq CrewKey :=
  inferInstanceAs (DecidableEq (Nat × Nat × String × Option String × Option String))

/-- The identifying tuple carried by a table row. -/
def crewKey (r : MovieCrew) : CrewKey :=
  (r.movieId, r.personId, r.role, r.job, r.character)

/-- The tuple the action searches for, built from the normalized input. -/
def inputKey (inp : LinkInput) : CrewKey :=
  (inp.movieId, inp.personId, inp.role, normNullable inp.job, normNullable inp.character)

/-- Lines 219-227: `prisma.movieCrew.findFirst({ where: {...} })` — the
first row of the table whose tuple matches the input. -/
def findFirstCrew (db : List MovieCrew) (inp : LinkInput) : Option MovieCrew :=
  db.find? (fun r => decide (crewKey r = inputKey inp))

/-- Lines 229-246: when a matching row exists, update that row's order to
`data.order ?? existing.order ?? null`; otherwise create a new row with a
fresh id.  The table is the list of rows; the update by
`where: { id: existing.id }` rewrites the rows carrying that id (unique in
the real table). -/
def linkPersonToMovie (db : List MovieCrew) (inp : LinkInput) (freshId : Nat) :
    List MovieCrew :=
  match findFirstCrew db inp with
  | some existing =>
      db.map (fun r =>
        if r.id = existing.id then
          { r with order := match inp.order with
                            | some o => some o
                            | none => existing.order }
        else r)
  | none =>
      db ++ [{ id := freshId
               movieId := inp.movieId
               personId := inp.personId
               role := inp.role
               job := normNullable inp.job
               character := normNullable inp.character
               order := inp.order }]

/-- Number of rows of the table carrying a given identifying tuple. -/
def keyCount (db : List MovieCrew) (key : CrewKey) : Nat :=
  (db.filter (fun r => decide (crewKey r = key))).length

end BMovies

namespace BMovies

/-- C1: the code does NOT coerce a non-numeric page to 1: `parseInt("abc")`
is `NaN` and `Math.max(1, NaN)` is `NaN`, so for the raw input `"abc"` the
page index after construction is `NaN` (modelled `none`), not an integer
≥ 1, and differs from the result for input `"0"`, which is `1`.  The spec's
intent (sanitize to a page ≥ 1, never forward an invalid page) is clear from
the source comments; the code slips on the `NaN` case. -/
theorem c1_page_nan_divergence :
    currentPageJS (some "abc") = none
    ∧ currentPageJS (some "0") = some 1
    ∧ currentPageJS none = some 1
    ∧ currentPageJS (some "-5") = some 1 :=
  ⟨rfl, by decide, by decide, by decide⟩

/-- C2: the code does NOT confine the resolved sort field to the whitelist.
A JS property read consults the prototype chain, so for the raw sort
parameter "toString" (likewise "constructor", "valueOf", "__proto__", ...)
`SORT_MAP[sort]` is the inherited `Object.prototype` member — truthy, hence
kept by `|| "title"` — and `sortField` is that member, not one of the four
whitelisted field names; it then reaches the data store as the computed
`orderBy` key.  An ordinary unrecognized key such as "evil" does resolve to
"title" as the claim (and the spec, clearly the intent) describes. -/
theorem c2_sort_proto_divergence :
    sortField (some "toString") = JSValue.protoMember "toString"
    ∧ sortField (some "constructor") = JSValue.protoMember "constructor"
    ∧ sortField (some "toString") ≠ JSValue.str "title"
    ∧ sortField (some "toString") ≠ JSValue.str "releaseDate"
    ∧ sortField (some "toString") ≠ JSValue.str "rating"
    ∧ sortField (some "toString") ≠ JSValue.str "votes"
    ∧ sortField (some "evil") = JSValue.str "title"
    ∧ sortField none = JSValue.str "title" := by
  decide

/-- C4: the sort direction is "desc" iff the raw order parameter is exactly
the string "desc"; any other input (absent, "DESC", "Desc", "", ...)
yields "asc". -/
theorem c4_order_strict_equality :
    ∀ orderParam : Option String,
      (sortOrder orderParam = "desc" ↔ orderParam = some "desc")
      ∧ (orderParam ≠ some "desc" → sortOrder orderParam = "asc") := by
  intro orderParam
  unfold sortOrder
  constructor
  · split_ifs with h <;> simp [h]
  · intro h
    simp [h]

/-- Witness for C4 at the concrete inputs "DESC" and "desc". -/
theorem c4_order_strict_equality_witness :
    sortOrder (some "DESC") = "asc" ∧ sortOrder (some "desc") = "desc" :=
  ⟨(c4_order_strict_equality (some "DESC")).2 (by decide),
   (c4_order_strict_equality (some "desc")).1.mpr rfl⟩

/-- C3 counterexample: at currentPage = 100, totalPages = 5 (reachable: the
control is rendered since totalPages > 1, and the page parameter is user
input) the Previous link target is 99, while the claimed
`clamp(currentPage - 1, totalPages)` is 5; the target also falls outside
`[1, totalPages]`. -/
theorem c3_clamp_counterexample :
    prevTarget 100 = 99
    ∧ clampSpec (100 - 1) 5 = 5
    ∧ prevTarget 100 ≠ clampSpec (100 - 1) 5
    ∧ ¬ prevTarget 100 ≤ 5 := by
  decide

/-- C3 amended: the previous target is `max(1, currentPage - 1)` and the
next target is `min(totalPages, currentPage + 1)`; whenever
`1 ≤ currentPage ≤ totalPages` these coincide with
`clamp(currentPage ∓ 1, totalPages)` and lie within `[1, totalPages]`.  The
previous target is not clamped above by `totalPages` (and the next target
not clamped below by 1) when `currentPage` lies outside the range. -/
theorem c3_targets_amended (totalPages currentPage : Int)
    (h1 : 1 ≤ currentPage) (h2 : currentPage ≤ totalPages) :
    prevTarget currentPage = clampSpec (currentPage - 1) totalPages
    ∧ nextTarget totalPages currentPage = clampSpec (currentPage + 1) totalPages
    ∧ 1 ≤ prevTarget currentPage ∧ prevTarget currentPage ≤ totalPages
    ∧ 1 ≤ nextTarget totalPages currentPage
    ∧ nextTarget totalPages currentPage ≤ totalPages := by
  unfold prevTarget nextTarget clampSpec
  omega

/-- Witness for the amended C3 at currentPage = 3, totalPages = 5. -/
theorem c3_targets_amended_witness :
    prevTarget 3 = clampSpec 2 5 ∧ nextTarget 5 3 = clampSpec 4 5 := by
  have h := c3_targets_amended 5 3 (by decide) (by decide)
  exact ⟨h.1, h.2.1⟩

/-- C5: on totalPages = 10, currentPage = 5, siblingCount = 2 the windowed
pagination computation yields exactly
`[1, ellipsis, 3, 4, 5, 6, 7, ellipsis, 10]`, and the token 5 and only that
token is marked current by the rendering predicate of line 168. -/
theorem c5_window_concrete :
    getPaginationItems 10 5 2 =
      [PageItem.page 1, PageItem.ellipsis, PageItem.page 3, PageItem.page 4,
       PageItem.page 5, PageItem.page 6, PageItem.page 7, PageItem.ellipsis,
       PageItem.page 10]
    ∧ (getPaginationItems 10 5 2).filter (isActive 5) = [PageItem.page 5] := by
  decide

/-- C6: the pagination control (previous link, token sequence, next link) is
rendered iff `totalPages > 1`; when `totalPages ≤ 1` nothing is rendered and
the token sequence itself is also empty. -/
theorem c6_control_only_when_multiple_pages :
    ∀ totalPages currentPage : Int,
      (renderPagination totalPages currentPage = none ↔ totalPages ≤ 1)
      ∧ (totalPages ≤ 1 → getPaginationItems totalPages currentPage 2 = []) := by
  intro tp cp
  constructor
  · unfold renderPagination
    split_ifs with h
    · simp
      omega
    · simp
      omega
  · intro h
    unfold getPaginationItems
    simp [h]

/-- Witness for C6 at totalPages = 1, currentPage = 1. -/
theorem c6_control_only_when_multiple_pages_witness :
    renderPagination 1 1 = none ∧ getPaginationItems 1 1 2 = [] :=
  ⟨((c6_control_only_when_multiple_pages 1 1).1).mpr (by decide),
   (c6_control_only_when_multiple_pages 1 1).2 (by decide)⟩

/-- C7: for every sanitized page index the query window is
`skip = (currentPage - 1) * 24` and `take = 24`, and `take` does not depend
on any request parameter. -/
theorem c7_fixed_page_size :
    ∀ (params : ReqParams) (currentPage : Int),
      (movieQueryWindow params currentPage).skip = (currentPage - 1) * 24
      ∧ (movieQueryWindow params currentPage).take = 24
      ∧ ∀ params2 : ReqParams,
          (movieQueryWindow params currentPage).take
            = (movieQueryWindow params2 currentPage).take :=
  fun _ _ => ⟨rfl, rfl, fun _ => rfl⟩

/-- C8 counterexample: a parameter present with an empty value is a non-page
query parameter of the incoming request, yet `createPageHref` drops it: with
entries `[("q", ""), ("genre", "Action")]` and target page 2 the built href
carries no "q" entry at all, so the result differs from the request in more
than the page parameter. -/
theorem c8_href_counterexample :
    ("q", "") ∈ [(("q", "") : String × String), ("genre", "Action")]
    ∧ createPageHref [("q", ""), ("genre", "Action")] 2
        = [("genre", "Action"), ("page", "2")]
    ∧ ("q", "") ∉ createPageHref [("q", ""), ("genre", "Action")] 2 := by
  refine ⟨by decide, ?_, by decide⟩
  decide

/-- C8 amended: the built href keeps every non-page parameter whose value is
non-empty, with its value unchanged; every entry of the result is either the
new page entry or such a kept parameter (parameters with empty values are
dropped); and the page parameter is set to the target page. -/
theorem c8_href_amended (entries : List (String × String)) (p : Int) :
    (∀ k v, (k, v) ∈ entries → k ≠ "page" → v ≠ "" →
        (k, v) ∈ createPageHref entries p)
    ∧ (∀ k v, (k, v) ∈ createPageHref entries p →
        (k = "page" ∧ v = toString p) ∨ ((k, v) ∈ entries ∧ k ≠ "page" ∧ v ≠ ""))
    ∧ ("page", toString p) ∈ createPageHref entries p := by
  refine ⟨?_, ?_, ?_⟩
  · intro k v hm hk hv
    refine List.mem_append.mpr (Or.inl ?_)
    refine List.mem_filter.mpr ⟨hm, ?_⟩
    simp [hk, hv]
  · intro k v hm
    rcases List.mem_append.mp hm with h | h
    · have h2 := List.mem_filter.mp h
      have h3 := h2.2
      simp only [Bool.not_eq_true', Bool.or_eq_false_iff, beq_eq_false_iff_ne] at h3
      exact Or.inr ⟨h2.1, h3.2, h3.1⟩
    · simp only [List.mem_singleton, Prod.mk.injEq] at h
      exact Or.inl h
  · exact List.mem_append.mpr (Or.inr (by simp))

/-- Witness for the amended C8 at concrete entries and target page 3. -/
theorem c8_href_amended_witness :
    ("genre", "Action") ∈ createPageHref [("q", "x"), ("genre", "Action")] 3 :=
  (c8_href_amended [("q", "x"), ("genre", "Action")] 3).1 "genre" "Action"
    (by decide) (by decide) (by decide)

/-- C9: the where-predicate of the `findMany` call and the where-predicate
of the `count` call are the same — case-insensitive title containment plus
the conditional genre-membership restriction — both as query descriptors and
in their semantics on every movie row. -/
theorem c9_count_where_equals_findmany_where :
    ∀ (query selectedGenre : String),
      findManyWhere query selectedGenre = countWhere query selectedGenre
      ∧ ∀ m : Movie,
          matchesWhere (findManyWhere query selectedGenre) m
            = matchesWhere (countWhere query selectedGenre) m :=
  fun _ _ => ⟨rfl, fun _ => rfl⟩

/-- A map that rewrites only the `order` field of rows leaves every
identifying tuple count unchanged. -/
theorem keyCount_map_same_key (db : List MovieCrew) (f : MovieCrew → MovieCrew)
    (hf : ∀ r, crewKey (f r) = crewKey r) (key : CrewKey) :
    keyCount (db.map f) key = keyCount db key := by
  induction db with
  | nil => rfl
  | cons a t ih =>
    unfold keyCount at *
    simp only [List.map_cons, List.filter_cons, hf a]
    split
    · simp [ih]
    · exact ih

/-- Tuple counts add across appends. -/
theorem keyCount_append (l1 l2 : List MovieCrew) (key : CrewKey) :
    keyCount (l1 ++ l2) key = keyCount l1 key + keyCount l2 key := by
  unfold keyCount
  simp [List.filter_append]

/-- When `findFirst` comes back empty, no row of the table carries the
searched tuple. -/
theorem keyCount_of_find_none (db : List MovieCrew) (inp : LinkInput)
    (h : findFirstCrew db inp = none) : keyCount db (inputKey inp) = 0 := by
  unfold findFirstCrew at h
  rw [List.find?_eq_none] at h
  unfold keyCount
  rw [List.length_eq_zero, List.filter_eq_nil_iff]
  intro r hr
  exact h r hr

/-- C10: the crew-linking action never creates a duplicate link.  When some
row already carries the input's (movieId, personId, role, trimmed job,
trimmed character) tuple, the action rewrites that (first matching) row's
order field — keeping the existing order when none is supplied — and adds no
row; and whenever the table holds at most one row per tuple before the
action, it still does afterwards. -/
theorem c10_no_duplicate_crew_link (db : List MovieCrew) (inp : LinkInput)
    (freshId : Nat) :
    ((∃ r ∈ db, crewKey r = inputKey inp) →
        (linkPersonToMovie db inp freshId).length = db.length)
    ∧ (∀ key : CrewKey, keyCount db key ≤ 1 →
        keyCount (linkPersonToMovie db inp freshId) key ≤ 1)
    ∧ (∀ r0, findFirstCrew db inp = some r0 →
        linkPersonToMovie db inp freshId
          = db.map (fun r =>
              if r.id = r0.id then
                { r with order := match inp.order with
                                  | some o => some o
                                  | none => r0.order }
              else r)) := by
  refine ⟨?_, ?_, ?_⟩
  · rintro ⟨r, hr, hkey⟩
    unfold linkPersonToMovie
    cases hfind : findFirstCrew db inp with
    | some existing => simp
    | none =>
      exfalso
      unfold findFirstCrew at hfind
      rw [List.find?_eq_none] at hfind
      exact hfind r hr (by simpa using hkey)
  · intro key hle
    unfold linkPersonToMovie
    cases hfind : findFirstCrew db inp with
    | some existing =>
      rw [keyCount_map_same_key]
      · exact hle
      · intro r
        unfold crewKey
        split <;> rfl
    | none =>
      rw [keyCount_append]
      by_cases hk : inputKey inp = key
      · subst hk
        rw [keyCount_of_find_none db inp hfind]
        unfold keyCount
        simp only [List.filter_cons, List.filter_nil]
        have : crewKey
            { id := freshId, movieId := inp.movieId, personId := inp.personId
              role := inp.role, job := normNullable inp.job
              character := normNullable inp.character, order := inp.order }
            = inputKey inp := rfl
        simp [this]
      · unfold keyCount
        simp only [List.filter_cons, List.filter_nil]
        have : crewKey
            { id := freshId, movieId := inp.movieId, personId := inp.personId
              role := inp.role, job := normNullable inp.job
              character := normNullable inp.character, order := inp.order }
            = inputKey inp := rfl
        rw [this]
        simp only [decide_eq_true_eq]
        rw [if_neg hk]
        simpa [keyCount] using hle
  · intro r0 h0
    unfold linkPersonToMovie
    rw [h0]

/-- Witness for C10: a table holding one matching row (the input's character
trims to the stored one), at which the action keeps the table length at 1
and rewrites the row as described. -/
theorem c10_no_duplicate_crew_link_witness :
    (linkPersonToMovie
        [{ id := 1, movieId := 10, personId := 20, role := "ACTOR", job := none,
           character := some "Neo", order := some 1 }]
        { movieId := 10, personId := 20, role := "ACTOR", job := none,
          character := some " Neo ", order := none } 99).length = 1
    ∧ keyCount
        (linkPersonToMovie
          [{ id := 1, movieId := 10, personId := 20, role := "ACTOR", job := none,
             character := some "Neo", order := some 1 }]
          { movieId := 10, personId := 20, role := "ACTOR", job := none,
            character := some " Neo ", order := none } 99)
        (10, 20, "ACTOR", none, some "Neo") ≤ 1 := by
  have h := c10_no_duplicate_crew_link
    [{ id := 1, movieId := 10, personId := 20, role := "ACTOR", job := none,
       character := some "Neo", order := some 1 }]
    { movieId := 10, personId := 20, role := "ACTOR", job := none,
      character := some " Neo ", order := none } 99
  refine ⟨?_, ?_⟩
  · exact h.1 ⟨_, List.mem_singleton.mpr rfl, by decide⟩
  · exact h.2.1 (10, 20, "ACTOR", none, some "Neo") (by decide)

end BMovies
